import Mathlib

/-!
Verification of the meeting-bot repository's core behaviors.

Shallow embedding of the claim-relevant code:
  * `convertInt16ToFloat32`   — src/lib/audioManager.ts (appended MeetingManager
    variant, lines 281-289): Int16 PCM to Float32 PCM conversion.
  * `BBBMonitor`              — src/unnamed/part_005: processMeeting / checkMeetings
    de-duplication of meeting detection callbacks.
  * `createMeetingWindow`     — src/electron/main.ts lines 79-137: the concurrency
    ceiling on simultaneous embedded meeting windows.
  * `onClose` reconnect logic — src/lib/transcription.ts lines 83-94.
  * `handleTranscript`        — src/lib/audioManager.ts lines 676-771 (the
    MeetingManager variant carrying duplicate suppression and the anti-feedback
    filter).
  * `playBotAudio`            — src/electron/contentScript.ts lines 224-397:
    the audio substitution engine with retry, restoration and the swap lock.
  * an interleaving model of two concurrent `playBotAudio` invocations.

JavaScript strings are modelled as `List Char`; machine floats produced by the
PCM conversion are modelled exactly in `ℚ` (each value `v / 32768` with
`|v| ≤ 2^15` is exactly representable in an IEEE binary32, so the rational
model is faithful).
-/

namespace MeetingBot

/-- JavaScript strings, modelled as lists of characters. -/
abbrev Str := List Char

/-- Model of `String.prototype.toLowerCase` (character-wise lowering). -/
def jsToLower (s : Str) : Str := s.map Char.toLower

/-- Model of `String.prototype.includes`: substring containment. -/
def jsIncludes (s pat : Str) : Bool := decide (pat <:+: s)

/-- Mapping a function over both lists preserves the contiguous-substring
relation. -/
theorem mapInfix {α β : Type} (f : α → β) {l₁ l₂ : List α} (h : l₁ <:+: l₂) :
    l₁.map f <:+: l₂.map f := by
  obtain ⟨s, t, rfl⟩ := h
  exact ⟨s.map f, t.map f, by simp⟩

/-! ### C9: convertInt16ToFloat32 (src/lib/audioManager.ts lines 281-289) -/

/-- Model of `convertInt16ToFloat32` (src/lib/audioManager.ts lines 281-289).
The input `ArrayBuffer` is viewed through an `Int16Array` (a list of signed
16-bit integers); the output is `float32Array[i] = int16Array[i] / 32768` with
the same number of samples. -/
def convertInt16ToFloat32 (buffer : List Int) : List ℚ :=
  buffer.map (fun v : Int => (v : ℚ) / 32768)

/-! ### C6: BBBMonitor exactly-once detection (src/unnamed/part_005) -/

/-- Model of `BBBMonitor.processMeeting` (src/unnamed/part_005 lines 103-110):
when the identifier is not yet in `joinedMeetings`, it is added and the
`onMeetingDetected` callback fires (`true`); otherwise nothing happens. -/
def processMeeting (joined : List String) (id : String) : List String × Bool :=
  if id ∈ joined then (joined, false) else (id :: joined, true)

/-- Model of the monitor consuming a stream of reported meeting identifiers
(the concatenation of all polling cycles, each cycle's identifiers processed in
order by `checkMeetings`). Returns the final `joinedMeetings` set and the
ordered list of identifiers for which the callback fired. -/
def monitorRun (joined : List String) : List String → List String × List String
  | [] => (joined, [])
  | id :: rest =>
    let p := processMeeting joined id
    let r := monitorRun p.1 rest
    (r.1, (if p.2 then [id] else []) ++ r.2)

theorem monitorRun_count (id : String) :
    ∀ (reports : List String) (joined : List String),
      (monitorRun joined reports).2.count id =
        if id ∈ reports ∧ id ∉ joined then 1 else 0 := by
  intro reports
  induction reports with
  | nil => intro joined; simp [monitorRun]
  | cons hd tl ih =>
    intro joined
    by_cases hmem : hd ∈ joined
    · have hp : processMeeting joined hd = (joined, false) := by
        simp [processMeeting, hmem]
      simp only [monitorRun, hp]
      have h0 : ((if false = true then [hd] else []) : List String) = [] := rfl
      rw [h0, List.nil_append, ih joined]
      by_cases hidhd : id = hd
      · subst hidhd
        simp [hmem]
      · simp [List.mem_cons, hidhd]
    · have hp : processMeeting joined hd = (hd :: joined, true) := by
        simp [processMeeting, hmem]
      simp only [monitorRun, hp, if_true, List.singleton_append]
      rw [List.count_cons, ih (hd :: joined)]
      by_cases hidhd : id = hd
      · subst hidhd
        simp [hmem]
      · simp [List.mem_cons, hidhd, Ne.symm hidhd]

/-! ### C7: concurrency ceiling (src/electron/main.ts lines 22, 79-137) -/

/-- The configured maximum of simultaneous meeting windows
(`MAX_CONCURRENT_MEETINGS`, src/electron/main.ts line 22). -/
def MAX_CONCURRENT_MEETINGS : Nat := 5

/-- Model of `ElectronApp.createMeetingWindow` (src/electron/main.ts lines
79-137), tracking the keys of `windows.meetingWindows`. A request for an
already-present identifier is a no-op; a request at capacity is refused with
only a log line; otherwise the window is registered (and deregistered again if
`loadURL` fails, modelled by `loadFails`). -/
def createMeetingWindow (windows : List String) (id : String) (loadFails : Bool) :
    List String :=
  if id ∈ windows then windows
  else if MAX_CONCURRENT_MEETINGS ≤ windows.length then windows
  else if loadFails then (id :: windows).erase id else id :: windows

/-- Operations that mutate the `meetingWindows` map: a join request
(`createMeetingWindow`) or a window `closed` event (which deletes the key). -/
inductive MainOp where
  | create (id : String) (loadFails : Bool)
  | close (id : String)

/-- One coordinator step. -/
def mainStep (windows : List String) : MainOp → List String
  | .create id f => createMeetingWindow windows id f
  | .close id => windows.erase id

/-- Running the coordinator from a starting window set over a sequence of
operations. -/
def mainRun (windows : List String) (ops : List MainOp) : List String :=
  ops.foldl mainStep windows

theorem mainStep_length_le (windows : List String) (op : MainOp)
    (h : windows.length ≤ MAX_CONCURRENT_MEETINGS) :
    (mainStep windows op).length ≤ MAX_CONCURRENT_MEETINGS := by
  cases op with
  | create id f =>
    simp only [mainStep, createMeetingWindow]
    by_cases h1 : id ∈ windows
    · simpa [h1]
    · simp only [h1, if_false]
      by_cases h2 : MAX_CONCURRENT_MEETINGS ≤ windows.length
      · simpa [h2]
      · have hlt : windows.length < MAX_CONCURRENT_MEETINGS := Nat.lt_of_not_le h2
        by_cases h3 : f
        · simp only [h2, if_false, h3, if_true]
          calc ((id :: windows).erase id).length ≤ (id :: windows).length :=
                List.length_erase_le _ _
            _ = windows.length + 1 := by simp
            _ ≤ MAX_CONCURRENT_MEETINGS := hlt
        · simp only [h2, if_false, h3, if_false, List.length_cons]
          exact hlt
  | close id =>
    calc (windows.erase id).length ≤ windows.length := List.length_erase_le _ _
      _ ≤ MAX_CONCURRENT_MEETINGS := h

theorem mainRun_length_le (ops : List MainOp) (windows : List String)
    (h : windows.length ≤ MAX_CONCURRENT_MEETINGS) :
    (mainRun windows ops).length ≤ MAX_CONCURRENT_MEETINGS := by
  induction ops generalizing windows with
  | nil => simpa [mainRun]
  | cons op rest ih =>
    have : mainRun windows (op :: rest) = mainRun (mainStep windows op) rest := by
      simp [mainRun]
    rw [this]
    exact ih _ (mainStep_length_le windows op h)

/-! ### C8: transcription reconnect backoff (src/lib/transcription.ts 83-94) -/

/-- WebSocket normal-closure code, the only code treated as intentional. -/
def NORMAL_CLOSURE : Nat := 1000

/-- `maxReconnectAttempts` (src/lib/transcription.ts line 18). -/
def maxReconnectAttempts : Nat := 3

/-- The backoff base: the `onclose` handler schedules the reconnect
`2000 * this.reconnectAttempts` milliseconds later. -/
def BACKOFF_BASE_MS : Nat := 2000

/-- Model of the `onclose` handler (src/lib/transcription.ts lines 83-94).
Input: the current `reconnectAttempts` counter and the close code. Output: the
delay of the scheduled reconnect (`none` when no reconnect is scheduled) and
the counter value after the scheduled timer fires (the handler increments it
inside the `setTimeout` callback, before calling `connect`). -/
def onClose (reconnectAttempts : Nat) (code : Nat) : Option Nat × Nat :=
  if code ≠ NORMAL_CLOSURE ∧ reconnectAttempts < maxReconnectAttempts then
    (some (BACKOFF_BASE_MS * reconnectAttempts), reconnectAttempts + 1)
  else (none, reconnectAttempts)

/-- A run of `n` consecutive abnormal closures (close code 1006), each
scheduled reconnect's timer firing (and incrementing the counter) before the
next closure; yields the scheduled delay of each closure in order. -/
def abnormalRun (reconnectAttempts : Nat) : Nat → List (Option Nat)
  | 0 => []
  | n + 1 =>
    let r := onClose reconnectAttempts 1006
    r.1 :: abnormalRun r.2 n

theorem abnormalRun_eq (n : Nat) :
    ∀ a : Nat, abnormalRun a n =
      (List.range n).map
        (fun i => if a + i < maxReconnectAttempts
                  then some (BACKOFF_BASE_MS * (a + i)) else none) := by
  induction n with
  | zero => intro a; simp [abnormalRun]
  | succ k ih =>
    intro a
    by_cases h : a < maxReconnectAttempts
    · have h1 : onClose a 1006 = (some (BACKOFF_BASE_MS * a), a + 1) := by
        simp [onClose, NORMAL_CLOSURE, h]
      rw [List.range_succ_eq_map]
      simp only [abnormalRun, h1, ih (a + 1), List.map_cons, List.map_map]
      congr 1
      · simp [h]
      · apply List.map_congr_left
        intro i _
        simp only [Function.comp_apply]
        have : a + 1 + i = a + (i + 1) := by omega
        rw [this]
    · have hle : maxReconnectAttempts ≤ a := Nat.le_of_not_lt h
      have h1 : onClose a 1006 = (none, a) := by
        simp only [onClose]
        rw [if_neg]
        intro hc
        exact h hc.2
      rw [List.range_succ_eq_map]
      simp only [abnormalRun, h1, ih a, List.map_cons, List.map_map]
      congr 1
      · simp [h]
      · apply List.map_congr_left
        intro i _
        simp only [Function.comp_apply]
        have hx : ¬ a + (i + 1) < maxReconnectAttempts := by omega
        have hy : ¬ a + i < maxReconnectAttempts := by omega
        simp [hx, hy]

/-! ### C10: content script injection guard (src/electron/contentScript.ts 5-7) -/

/-- Observable per-page effects of evaluating the content script: the
`__BOT_INJECTED` guard flag, how many times `window.RTCPeerConnection` was
replaced by `PatchedRTCPeerConnection`, how many transcription audio pipelines
were initialized, how many auto-pilot `setInterval` timers were registered, and
how many `onBotSpeak` handlers were attached. -/
structure PageState where
  injected : Bool
  rtcPatched : Nat
  audioPipelines : Nat
  autoPilotTimers : Nat
  speakHandlers : Nat
  deriving DecidableEq

/-- Model of one evaluation of the content script IIFE
(src/electron/contentScript.ts lines 5-449): if `window.__BOT_INJECTED` is
already set the function returns immediately; otherwise it sets the flag,
patches the peer-connection constructor, initializes the audio pipeline,
attaches the bot-speak handler and registers the auto-pilot timer. -/
def injectContentScript (s : PageState) : PageState :=
  if s.injected then s
  else
    { injected := true
      rtcPatched := s.rtcPatched + 1
      audioPipelines := s.audioPipelines + 1
      autoPilotTimers := s.autoPilotTimers + 1
      speakHandlers := s.speakHandlers + 1 }

/-- A page before any injection. -/
def freshPage : PageState :=
  { injected := false, rtcPatched := 0, audioPipelines := 0
    autoPilotTimers := 0, speakHandlers := 0 }

theorem injectContentScript_idem (s : PageState) :
    injectContentScript (injectContentScript s) = injectContentScript s := by
  by_cases hs : s.injected
  · simp [injectContentScript, hs]
  · simp [injectContentScript, hs]

theorem injectContentScript_iterate (n : Nat) (h : 1 ≤ n) :
    injectContentScript^[n] freshPage = injectContentScript freshPage := by
  obtain ⟨k, rfl⟩ : ∃ k, n = k + 1 := ⟨n - 1, by omega⟩
  induction k with
  | zero => simp
  | succ m ih =>
    rw [Function.iterate_succ_apply', ih (by omega), injectContentScript_idem]

/-! ### C4 and C5: handleTranscript (src/lib/audioManager.ts lines 676-771) -/

/-- A transcript segment as delivered to `MeetingManager.handleTranscript`
(speaker label, diarization speaker index, text, and the interim/final flag).
Wall-clock fields (timestamp, startTime, endTime) and confidence/word arrays
are omitted: the handler copies them into the entry unexamined. -/
structure Segment where
  speaker : Str
  speakerIndex : Option Int
  text : Str
  isFinal : Bool
  deriving DecidableEq

/-- An entry of the per-meeting `transcriptHistories` array (the fields the
dedup check and the claims inspect). -/
structure Entry where
  speaker : Str
  speakerIndex : Option Int
  text : Str
  deriving DecidableEq

/-- Result of one `handleTranscript` call: the updated history and whether a
language-model request (`aiService.generateResponse`) was issued. -/
structure HTResult where
  history : List Entry
  llmRequested : Bool
  deriving DecidableEq

/-- The apostrophe character (written by code point to keep source lines free
of bare quote characters). -/
def apos : Char := Char.ofNat 39

/-- The lower-cased self-reference pattern the anti-feedback filter looks for
(src/lib/audioManager.ts line 725). -/
def apologyPattern : Str :=
  "i".toList ++ [apos] ++ "m sorry, i encountered an error".toList

/-- The bot's fallback apology string (src/unnamed/part_006 line 127):
the aiService returns this text when reply generation fails. -/
def fallbackApology : Str :=
  "I".toList ++ [apos] ++
    "m sorry, I encountered an error extracting that information.".toList

/-- `triggerWords` (src/lib/audioManager.ts line 719). -/
def triggerWords : List Str :=
  ["bot".toList, "assistant".toList, "ai".toList,
   "hey bot".toList, "hello bot".toList, "hello bob".toList]

/-- The four self-referential phrases of the anti-feedback filter
(src/lib/audioManager.ts lines 725-728). -/
def feedbackPhrases : List Str :=
  [apologyPattern, "gemini".toList, "flash".toList, "meeting assistant".toList]

/-- `(segment as any).speaker || "Speaker"` (src/lib/audioManager.ts
line 696): a missing or empty speaker label falls back to "Speaker". -/
def effSpeaker (seg : Segment) : Str :=
  if seg.speaker = [] then "Speaker".toList else seg.speaker

/-- The entry pushed for a segment (src/lib/audioManager.ts lines 702-713). -/
def segEntry (seg : Segment) : Entry :=
  { speaker := effSpeaker seg, speakerIndex := seg.speakerIndex,
    text := seg.text }

/-- The entry pushed for a bot reply (src/lib/audioManager.ts lines 740-749). -/
def botEntry (response : Str) : Entry :=
  { speaker := "Bot".toList, speakerIndex := some (-1), text := response }

/-- Model of `MeetingManager.handleTranscript` (src/lib/audioManager.ts lines
676-771) for one meeting. `winPresent` models whether a bot window exists for
the meeting; `aiResponse` is the language model's reply (`none` when
`generateResponse` throws or returns an empty value, in which case the `catch`
or the `if (response)` guard skips the bot entry). In order: missing-window
return, empty-text return, interim return, consecutive-duplicate suppression
(same text and same speaker label as the last history entry), push of the
segment entry, trigger-word scan over the lower-cased text, anti-feedback
filter, and finally the LLM request plus bot-entry push. -/
def handleTranscript (winPresent : Bool) (history : List Entry) (seg : Segment)
    (aiResponse : Option Str) : HTResult :=
  if winPresent = false then ⟨history, false⟩
  else if seg.text.all (fun c => c.isWhitespace) then ⟨history, false⟩
  else if seg.isFinal = false then ⟨history, false⟩
  else
    let dup : Bool :=
      match history.getLast? with
      | some last =>
          decide (last.text = seg.text) && decide (last.speaker = effSpeaker seg)
      | none => false
    if dup then ⟨history, false⟩
    else
      let history1 := history ++ [segEntry seg]
      let textLower := jsToLower seg.text
      if triggerWords.any (fun t => jsIncludes textLower t) then
        if feedbackPhrases.any (fun p => jsIncludes textLower p) then
          ⟨history1, false⟩
        else
          match aiResponse with
          | some r => ⟨history1 ++ [botEntry r], true⟩
          | none => ⟨history1, true⟩
      else ⟨history1, false⟩

/-- Two segments with identical speaker index and text but different speaker
labels, both finalized. -/
def segDupA : Segment :=
  { speaker := "Speaker 0".toList, speakerIndex := some 0,
    text := "hi".toList, isFinal := true }

/-- Same speaker index and text as `segDupA`, different label. -/
def segDupB : Segment :=
  { speaker := "Speaker 1".toList, speakerIndex := some 0,
    text := "hi".toList, isFinal := true }

theorem handleTranscript_skips_nonfinal (w : Bool) (h : List Entry)
    (seg : Segment) (r : Option Str) (hfin : seg.isFinal = false) :
    (handleTranscript w h seg r).history = h := by
  by_cases hw : w = false
  · simp [handleTranscript, hw]
  · by_cases hws : seg.text.all (fun c => c.isWhitespace) = true
    · simp [handleTranscript, hw, hws]
    · simp [handleTranscript, hw, hws, hfin]

theorem list_ne_append_singleton (l : List Entry) (x : Entry) : l ≠ l ++ [x] := by
  intro hl
  have := congrArg List.length hl
  simp at this

theorem handleTranscript_suppresses_repeat (h : List Entry) (seg : Segment)
    (r₁ r₂ : Option Str)
    (hyp : (handleTranscript true h seg r₁).history = h ++ [segEntry seg]) :
    handleTranscript true (h ++ [segEntry seg]) seg r₂ =
      ⟨h ++ [segEntry seg], false⟩ := by
  by_cases hws : seg.text.all (fun c => c.isWhitespace) = true
  · exfalso
    have hh : (handleTranscript true h seg r₁).history = h := by
      simp [handleTranscript, hws]
    rw [hh] at hyp
    exact list_ne_append_singleton h _ hyp
  · by_cases hfin : seg.isFinal = false
    · exfalso
      have hh : (handleTranscript true h seg r₁).history = h := by
        simp [handleTranscript, hws, hfin]
      rw [hh] at hyp
      exact list_ne_append_singleton h _ hyp
    · have hlast : (h ++ [segEntry seg]).getLast? = some (segEntry seg) :=
        List.getLast?_concat _
      simp [handleTranscript, hws, hfin, hlast, segEntry]

/-- C4 (counterexample): delivering to the handler two consecutive finalized
segments with the same speaker index (0) and the same text ("hi") but
different speaker labels yields two history entries — the suppression check
compares the speaker label, not the speaker index, so the claimed
(speakerIndex, text) suppression does not hold. -/
theorem transcript_dedup_counterexample :
    segDupA.speakerIndex = segDupB.speakerIndex ∧ segDupA.text = segDupB.text ∧
    (handleTranscript true (handleTranscript true [] segDupA none).history
        segDupB none).history.length = 2 := by
  refine ⟨rfl, rfl, ?_⟩
  decide

/-- C4 (amended): only finalized, non-blank entries are ever appended to the
per-meeting history, and the handler suppresses a segment whose text and
speaker label both equal those of the immediately preceding appended entry: if
a call appended exactly the segment's entry last, delivering the same segment
again is a no-op (one history entry, not two) and issues no language-model
request. -/
theorem transcript_dedup_amended :
    (∀ (w : Bool) (h : List Entry) (seg : Segment) (r : Option Str),
        seg.isFinal = false → (handleTranscript w h seg r).history = h) ∧
    (∀ (h : List Entry) (seg : Segment) (r₁ r₂ : Option Str),
        (handleTranscript true h seg r₁).history = h ++ [segEntry seg] →
        handleTranscript true (h ++ [segEntry seg]) seg r₂ =
          ⟨h ++ [segEntry seg], false⟩) :=
  ⟨handleTranscript_skips_nonfinal, handleTranscript_suppresses_repeat⟩

/-- Witness for C4's amended claim at a concrete input: a second delivery of
`segDupA` right after the first is suppressed. -/
theorem transcript_dedup_amended_witness :
    handleTranscript true ([] ++ [segEntry segDupA]) segDupA none =
      ⟨[] ++ [segEntry segDupA], false⟩ :=
  transcript_dedup_amended.2 [] segDupA none none (by decide)

/-- A finalized segment whose text is exactly the bot's fallback apology. -/
def apologySeg : Segment :=
  { speaker := "Speaker 0".toList, speakerIndex := some 0,
    text := fallbackApology, isFinal := true }

/-- C5: a finalized entry whose text contains the bot's fallback apology
string never produces a language-model request: the anti-feedback filter
matches the lower-cased apology pattern before `generateResponse` is reached,
whatever else (including address phrases) the text contains. -/
theorem trigger_never_fires_on_apology (w : Bool) (h : List Entry)
    (seg : Segment) (r : Option Str) (hfin : seg.isFinal = true)
    (hinf : fallbackApology <:+: seg.text) :
    (handleTranscript w h seg r).llmRequested = false := by
  have happ : apologyPattern <:+: jsToLower seg.text := by
    have h1 : List.map Char.toLower fallbackApology <:+:
        List.map Char.toLower seg.text := mapInfix Char.toLower hinf
    have h2 : apologyPattern <:+: List.map Char.toLower fallbackApology := by
      decide
    exact h2.trans h1
  have hinc : jsIncludes (jsToLower seg.text) apologyPattern = true := by
    simpa [jsIncludes, jsToLower] using happ
  have hfb : feedbackPhrases.any
      (fun p => jsIncludes (jsToLower seg.text) p) = true := by
    simp [feedbackPhrases, hinc]
  by_cases hw : w = false
  · simp [handleTranscript, hw]
  · by_cases hws : seg.text.all (fun c => c.isWhitespace) = true
    · simp [handleTranscript, hw, hws]
    · by_cases htr : triggerWords.any
          (fun t => jsIncludes (jsToLower seg.text) t) = true
      · simp [handleTranscript, hw, hws, hfin, htr, hfb]
        split <;> rfl
      · simp [handleTranscript, hw, hws, hfin, htr]
        split <;> rfl

/-- Witness for C5 at a concrete input: the apology text itself. -/
theorem trigger_never_fires_on_apology_witness :
    (handleTranscript true [] apologySeg (some "ok".toList)).llmRequested =
      false :=
  trigger_never_fires_on_apology true [] apologySeg (some "ok".toList) rfl
    List.infix_rfl

/-! ### Claim theorems for C6, C7, C8, C9, C10 -/

/-- C6: over any sequence of polling cycles, the monitor fires its
`onMeetingDetected` callback exactly once per reported identifier (once for
every identifier that is ever reported, and never again once the identifier is
in the `joinedMeetings` set). -/
theorem bbbMonitor_detect_exactly_once :
    (∀ (cycles : List (List String)) (id : String),
        (monitorRun [] cycles.flatten).2.count id =
          if id ∈ cycles.flatten then 1 else 0) ∧
    (∀ (joined reports : List String) (id : String), id ∈ joined →
        (monitorRun joined reports).2.count id = 0) := by
  constructor
  · intro cycles id
    rw [monitorRun_count]
    simp
  · intro joined reports id hmem
    rw [monitorRun_count]
    simp [hmem]

/-- Witness for C6 at a concrete input: an already-notified identifier is not
re-notified. -/
theorem bbbMonitor_detect_exactly_once_witness :
    (monitorRun ["m1"] ["m1", "m2"]).2.count "m1" = 0 :=
  bbbMonitor_detect_exactly_once.2 ["m1"] ["m1", "m2"] "m1" (by simp)

/-- C7: starting from an empty window set, no sequence of join requests and
window-close events ever pushes the number of simultaneous meeting windows
above `MAX_CONCURRENT_MEETINGS`; and a join request arriving at (or beyond)
capacity leaves the window set untouched (it is refused with only a log
line). -/
theorem coordinator_respects_concurrency_ceiling :
    (∀ ops : List MainOp,
        (mainRun [] ops).length ≤ MAX_CONCURRENT_MEETINGS) ∧
    (∀ (windows : List String) (id : String) (loadFails : Bool),
        MAX_CONCURRENT_MEETINGS ≤ windows.length →
        createMeetingWindow windows id loadFails = windows) := by
  constructor
  · intro ops
    exact mainRun_length_le ops [] (by simp)
  · intro w id f hcap
    by_cases h1 : id ∈ w
    · simp [createMeetingWindow, h1]
    · simp [createMeetingWindow, h1, hcap]

/-- Witness for C7 at a concrete input: a sixth join request against five
registered windows is a no-op. -/
theorem coordinator_respects_concurrency_ceiling_witness :
    createMeetingWindow ["a", "b", "c", "d", "e"] "f" false =
      ["a", "b", "c", "d", "e"] :=
  coordinator_respects_concurrency_ceiling.2 ["a", "b", "c", "d", "e"] "f"
    false (by decide)

/-- C8 (counterexample): the first abnormal closure schedules the first
reconnect attempt with delay `2000 * 0 = 0` milliseconds — strictly earlier
than the claimed lower bound `base * N = 2000 * 1` for N = 1. -/
theorem reconnect_backoff_counterexample :
    abnormalRun 0 1 = [some 0] ∧ 0 < BACKOFF_BASE_MS * 1 := by
  constructor
  · rfl
  · decide

/-- C8 (amended): in a run of consecutive abnormal closures the Nth closure
(index i = N - 1) schedules the Nth reconnect attempt `base * (N - 1)`
milliseconds later (so the first reconnect is immediate), no reconnect is
scheduled past `maxReconnectAttempts` attempts, and a normal-closure code
never schedules a reconnect. -/
theorem reconnect_backoff_amended :
    (∀ n : Nat, abnormalRun 0 n =
        (List.range n).map
          (fun i => if i < maxReconnectAttempts
                    then some (BACKOFF_BASE_MS * i) else none)) ∧
    (∀ a : Nat, onClose a NORMAL_CLOSURE = (none, a)) ∧
    (∀ (a code : Nat), maxReconnectAttempts ≤ a →
        onClose a code = (none, a)) := by
  refine ⟨?_, ?_, ?_⟩
  · intro n
    rw [abnormalRun_eq n 0]
    simp
  · intro a
    simp [onClose]
  · intro a code hcap
    simp only [onClose]
    rw [if_neg]
    intro hc
    omega

/-- Witness for C8's amended claim at a concrete input: once three reconnect
attempts have happened, a fourth abnormal closure schedules nothing. -/
theorem reconnect_backoff_amended_witness :
    onClose 3 1006 = (none, 3) :=
  reconnect_backoff_amended.2.2 3 1006 (by decide)

/-- C9: the conversion preserves the sample count, maps each signed 16-bit
sample `v` to `v / 32768`, and (for inputs in the Int16 range) every output
value lies in the interval [-1, 1). -/
theorem convertInt16ToFloat32_spec (buffer : List Int)
    (h : ∀ v ∈ buffer, -32768 ≤ v ∧ v < 32768) :
    (convertInt16ToFloat32 buffer).length = buffer.length ∧
    (∀ i : Nat, (convertInt16ToFloat32 buffer)[i]? =
        buffer[i]?.map (fun v : Int => (v : ℚ) / 32768)) ∧
    (∀ q ∈ convertInt16ToFloat32 buffer, -1 ≤ q ∧ q < 1) := by
  refine ⟨?_, ?_, ?_⟩
  · simp only [convertInt16ToFloat32, List.length_map]
  · intro i
    simp only [convertInt16ToFloat32, List.getElem?_map]
  · intro q hq
    unfold convertInt16ToFloat32 at hq
    rw [List.mem_map] at hq
    obtain ⟨v, hv, rfl⟩ := hq
    obtain ⟨h1, h2⟩ := h v hv
    refine ⟨?_, ?_⟩
    · rw [le_div_iff₀ (by norm_num : (0:ℚ) < 32768)]
      calc (-1 : ℚ) * 32768 = -32768 := by norm_num
        _ ≤ (v : ℚ) := by exact_mod_cast h1
    · rw [div_lt_one (by norm_num : (0:ℚ) < 32768)]
      exact_mod_cast h2

/-- Witness for C9 at a concrete input covering both extremes of the Int16
range. -/
theorem convertInt16ToFloat32_witness :
    (convertInt16ToFloat32 [0, 32767, -32768]).length = 3 ∧
    ∀ q ∈ convertInt16ToFloat32 [0, 32767, -32768], -1 ≤ q ∧ q < 1 := by
  obtain ⟨hl, _, hr⟩ :=
    convertInt16ToFloat32_spec [0, 32767, -32768] (by decide)
  exact ⟨by simpa using hl, hr⟩

/-- C10: re-evaluating the content script on the same page is a no-op — the
`__BOT_INJECTED` guard makes injection idempotent, and after any positive
number of evaluations of a fresh page the peer-connection constructor has been
patched exactly once (and likewise one pipeline, one timer, one handler). -/
theorem content_script_injection_idempotent :
    (∀ s : PageState,
        injectContentScript (injectContentScript s) = injectContentScript s) ∧
    (∀ n : Nat, 1 ≤ n →
        injectContentScript^[n] freshPage = injectContentScript freshPage) ∧
    (∀ n : Nat, 1 ≤ n →
        (injectContentScript^[n] freshPage).rtcPatched = 1) := by
  refine ⟨injectContentScript_idem, injectContentScript_iterate, ?_⟩
  intro n hn
  rw [injectContentScript_iterate n hn]
  rfl

/-- Witness for C10 at a concrete input: three injections equal one. -/
theorem content_script_injection_idempotent_witness :
    injectContentScript^[3] freshPage = injectContentScript freshPage ∧
    (injectContentScript^[3] freshPage).rtcPatched = 1 :=
  ⟨content_script_injection_idempotent.2.1 3 (by decide),
   content_script_injection_idempotent.2.2 3 (by decide)⟩

/-! ### C1 and C3: playBotAudio (src/electron/contentScript.ts lines 224-397) -/

/-- The track currently attached to the outbound audio sender: the original
microphone track or a synthetic bot track. -/
inductive Track where
  | orig
  | bot
  deriving DecidableEq

/-- Failure oracle for one iteration of the `playBotAudioWithRetry` loop
(src/electron/contentScript.ts lines 269-301): whether the inner
`waitForAudioSender(2000)` finds a connection carrying an audio sender
(updating `localPeerConnection`), whether the replace step
(`playBotAudioInternal`) throws, whether the thrown message contains
"closed"/"failed" (which triggers rediscovery), and whether that rediscovery
(`findActivePeerConnection`) comes back empty, leaving
`localPeerConnection = null`. -/
structure AttemptO where
  findSender : Bool
  replaceThrows : Bool
  errClosed : Bool
  rediscoverNull : Bool
  deriving DecidableEq

/-- Failure oracle for one `playBotAudio` call (src/electron/contentScript.ts
lines 304-397): empty input, the `audioSwapLock` value at entry, whether
`localAudioSender`/`originalUserTrack` are already captured, whether
`localPeerConnection` is null at entry (possible after a failed rediscovery of
an earlier call), whether the entry `waitForAudioSender(3000)` succeeds,
whether AudioContext/buffer construction throws, the three retry attempts,
whether `source.start()` throws, whether `replaceTrack(originalUserTrack)`
succeeds when attempted, and whether the catch block's
`localPeerConnection || findActivePeerConnection()` and its sender lookup
succeed when the connection reference was lost. -/
structure SpeakO where
  pcmEmpty : Bool
  lock0 : Bool
  haveSender : Bool
  pcNull0 : Bool
  findIn3000 : Bool
  bufferFails : Bool
  a1 : AttemptO
  a2 : AttemptO
  a3 : AttemptO
  startFails : Bool
  restoreWorks : Bool
  catchPcFound : Bool
  catchSenderFound : Bool
  deriving DecidableEq

/-- How the call finished: one of the three early `return`s (empty input, lock
busy, no sender found within the timeout), normal playback, or an exception
swallowed by the catch block. Every path resolves the async call; nothing is
re-thrown to the caller. -/
inductive SpeakOutcome where
  | emptyReturn
  | lockBusyReturn
  | noSenderReturn
  | played
  | errorCaught
  deriving DecidableEq

/-- Observable result of a `playBotAudio` call once its continuation chain
(including the `onended` handler) has settled: the sender's track, the
`audioSwapLock` value, whether the synthetic swap ever succeeded, whether a
`replaceTrack(originalUserTrack)` call was made, and the exit path. -/
structure SpeakResult where
  track : Track
  lockHeld : Bool
  swapped : Bool
  restoreAttempted : Bool
  outcome : SpeakOutcome
  deriving DecidableEq

/-- One iteration of the retry loop (src/electron/contentScript.ts lines
270-298) over the connection-null state: `waitForAudioSender(2000)` may
restore a non-null connection; a successful replace ends the loop; on a throw
whose message mentions "closed"/"failed" the rediscovery may null the
connection (a null connection makes `playBotAudioInternal` throw
"Peer connection unavailable: null", whose message triggers no rediscovery).
Returns (replace succeeded, connection-null afterwards). -/
def runAttempt (pcNull : Bool) (a : AttemptO) : Bool × Bool :=
  let pcNull1 := if a.findSender then false else pcNull
  if !pcNull1 && !a.replaceThrows then (true, pcNull1)
  else
    let pcNull2 :=
      if pcNull1 then pcNull1
      else if a.errClosed then a.rediscoverNull else pcNull1
    (false, pcNull2)

/-- The bounded retry loop of `playBotAudioWithRetry` (maxRetries = 3):
attempts run in order until one succeeds; exhaustion throws. -/
def runRetry : Bool → List AttemptO → Bool × Bool
  | pcNull, [] => (false, pcNull)
  | pcNull, a :: rest =>
    let r := runAttempt pcNull a
    if r.1 then r else runRetry r.2 rest

/-- The catch block of `playBotAudio` (src/electron/contentScript.ts lines
378-396): resolve a connection (`localPeerConnection ||
findActivePeerConnection()`), look up its audio sender, and if both exist
attempt `replaceTrack(originalUserTrack)` (its own failure is swallowed); then
close the context and release the lock. When the swap had succeeded the
current connection is the one the swap went through, so its audio sender
exists (it carries the bot track). `originalUserTrack` is non-null on every
path that reaches the try block. -/
def catchPath (tr : Track) (swapped : Bool) (pcNull : Bool) (o : SpeakO) :
    SpeakResult :=
  if (!pcNull || o.catchPcFound) && (swapped || o.catchSenderFound) then
    { track := if o.restoreWorks then Track.orig else tr
      lockHeld := false, swapped := swapped, restoreAttempted := true
      outcome := SpeakOutcome.errorCaught }
  else
    { track := tr, lockHeld := false, swapped := swapped
      restoreAttempted := false, outcome := SpeakOutcome.errorCaught }

/-- Model of `playBotAudio` (src/electron/contentScript.ts lines 304-397),
with the sender's track at entry `t0`. In order: empty-input return, busy-lock
return, sender discovery with bounded wait and no-sender return, lock
acquisition, buffer construction, the retry loop, `source.start()`, and — on
the success path — the `onended` handler, which always attempts
`replaceTrack(originalUserTrack)` (`localAudioSender` and `originalUserTrack`
are both non-null there) and releases the lock; every exception lands in
`catchPath`. -/
def playBotAudio (t0 : Track) (o : SpeakO) : SpeakResult :=
  if o.pcmEmpty then
    { track := t0, lockHeld := o.lock0, swapped := false
      restoreAttempted := false, outcome := SpeakOutcome.emptyReturn }
  else if o.lock0 then
    { track := t0, lockHeld := true, swapped := false
      restoreAttempted := false, outcome := SpeakOutcome.lockBusyReturn }
  else if !o.haveSender && !o.findIn3000 then
    { track := t0, lockHeld := false, swapped := false
      restoreAttempted := false, outcome := SpeakOutcome.noSenderReturn }
  else
    let pcNullInit := o.haveSender && o.pcNull0
    if o.bufferFails then catchPath t0 false pcNullInit o
    else
      let r := runRetry pcNullInit [o.a1, o.a2, o.a3]
      if r.1 then
        if o.startFails then catchPath Track.bot true r.2 o
        else
          { track := if o.restoreWorks then Track.orig else Track.bot
            lockHeld := false, swapped := true, restoreAttempted := true
            outcome := SpeakOutcome.played }
      else catchPath t0 false r.2 o

theorem runAttempt_pc (p : Bool) (a : AttemptO)
    (h : (runAttempt p a).1 = true) : (runAttempt p a).2 = false := by
  rcases a with ⟨fs, rt, ec, rn⟩
  revert h
  cases p <;> cases fs <;> cases rt <;> cases ec <;> cases rn <;> decide

theorem runRetry_pc (l : List AttemptO) :
    ∀ p : Bool, (runRetry p l).1 = true → (runRetry p l).2 = false := by
  induction l with
  | nil => intro p h; simp [runRetry] at h
  | cons a rest ih =>
    intro p h
    by_cases ha : (runAttempt p a).1 = true
    · have : runRetry p (a :: rest) = runAttempt p a := by
        simp [runRetry, ha]
      rw [this]
      exact runAttempt_pc p a ha
    · have hred : runRetry p (a :: rest) = runRetry (runAttempt p a).2 rest := by
        simp [runRetry, ha]
      rw [hred] at h ⊢
      exact ih _ h

theorem catchPath_notswapped (pc : Bool) (o : SpeakO) :
    ((catchPath Track.orig false pc o).swapped = true →
        (catchPath Track.orig false pc o).restoreAttempted = true) ∧
    (o.restoreWorks = true →
        (catchPath Track.orig false pc o).track = Track.orig) ∧
    ((catchPath Track.orig false pc o).swapped = false →
        (catchPath Track.orig false pc o).track = Track.orig) := by
  unfold catchPath
  split
  · exact ⟨by simp, fun h => by simp [h], fun _ => by
      cases hw : o.restoreWorks <;> simp [hw]⟩
  · exact ⟨by simp, fun _ => rfl, fun _ => rfl⟩

theorem catchPath_swapped (o : SpeakO) :
    catchPath Track.bot true false o =
      { track := if o.restoreWorks then Track.orig else Track.bot
        lockHeld := false, swapped := true, restoreAttempted := true
        outcome := SpeakOutcome.errorCaught } := by
  unfold catchPath
  simp

/-- C1: starting with the original track on the sender, every `playBotAudio`
execution — over every combination of failures at the buffer-build, replace,
and playback stages — either never swapped the synthetic track in (leaving the
sender on the original track) or attempted the restoring `replaceTrack`; and
whenever the restoring `replaceTrack` succeeds, the sender ends on the
original track regardless of which stage failed. -/
theorem playBotAudio_always_restores (o : SpeakO) :
    ((playBotAudio Track.orig o).swapped = true →
        (playBotAudio Track.orig o).restoreAttempted = true) ∧
    (o.restoreWorks = true → (playBotAudio Track.orig o).track = Track.orig) ∧
    ((playBotAudio Track.orig o).swapped = false →
        (playBotAudio Track.orig o).track = Track.orig) := by
  by_cases h1 : o.pcmEmpty = true
  · simp [playBotAudio, h1]
  · by_cases h2 : o.lock0 = true
    · simp [playBotAudio, h1, h2]
    · by_cases h3 : (!o.haveSender && !o.findIn3000) = true
      · simp [playBotAudio, h1, h2, h3]
      · by_cases h4 : o.bufferFails = true
        · have hred : playBotAudio Track.orig o =
              catchPath Track.orig false (o.haveSender && o.pcNull0) o := by
            simp [playBotAudio, h1, h2, h3, h4]
          rw [hred]
          exact catchPath_notswapped _ o
        · rcases hr : runRetry (o.haveSender && o.pcNull0) [o.a1, o.a2, o.a3]
            with ⟨succ, pcN⟩
          by_cases hsucc : succ = true
          · have hpcN : pcN = false := by
              have := runRetry_pc [o.a1, o.a2, o.a3]
                (o.haveSender && o.pcNull0) (by rw [hr]; exact hsucc)
              rw [hr] at this
              exact this
            subst hsucc
            subst hpcN
            by_cases h5 : o.startFails = true
            · have hred : playBotAudio Track.orig o =
                  catchPath Track.bot true false o := by
                simp [playBotAudio, h1, h2, h3, h4, hr, h5]
              rw [hred, catchPath_swapped]
              exact ⟨fun _ => rfl, fun h => by simp [h], by simp⟩
            · have hred : playBotAudio Track.orig o =
                  { track := if o.restoreWorks then Track.orig else Track.bot
                    lockHeld := false, swapped := true, restoreAttempted := true
                    outcome := SpeakOutcome.played } := by
                simp [playBotAudio, h1, h2, h3, h4, hr, h5]
              rw [hred]
              exact ⟨fun _ => rfl, fun h => by simp [h], by simp⟩
          · have hred : playBotAudio Track.orig o =
                catchPath Track.orig false pcN o := by
              simp [playBotAudio, h1, h2, h3, h4, hr, hsucc]
            rw [hred]
            exact catchPath_notswapped pcN o

/-- An execution in which the swap succeeds, `source.start()` then throws, and
the catch-block restoration succeeds. -/
def speakOracleEx : SpeakO :=
  { pcmEmpty := false, lock0 := false, haveSender := true, pcNull0 := false,
    findIn3000 := true, bufferFails := false,
    a1 := { findSender := true, replaceThrows := false, errClosed := false,
            rediscoverNull := false },
    a2 := { findSender := false, replaceThrows := false, errClosed := false,
            rediscoverNull := false },
    a3 := { findSender := false, replaceThrows := false, errClosed := false,
            rediscoverNull := false },
    startFails := true, restoreWorks := true, catchPcFound := true,
    catchSenderFound := true }

/-- Witness for C1: on `speakOracleEx` the sender ends on the original
track. -/
theorem playBotAudio_always_restores_witness :
    (playBotAudio Track.orig speakOracleEx).track = Track.orig :=
  (playBotAudio_always_restores speakOracleEx).2.1 rfl

/-- A call arriving with no sender captured and none discoverable within the
bounded wait. -/
def noSenderOracle : SpeakO :=
  { pcmEmpty := false, lock0 := false, haveSender := false, pcNull0 := false,
    findIn3000 := false, bufferFails := false,
    a1 := { findSender := false, replaceThrows := false, errClosed := false,
            rediscoverNull := false },
    a2 := { findSender := false, replaceThrows := false, errClosed := false,
            rediscoverNull := false },
    a3 := { findSender := false, replaceThrows := false, errClosed := false,
            rediscoverNull := false },
    startFails := false, restoreWorks := true, catchPcFound := false,
    catchSenderFound := false }

/-- C3 (counterexample): with no sender resolvable within the timeout the call
exits through the early no-sender `return` (src/electron/contentScript.ts line
328) — a normal resolution, not the exception exit (`errorCaught` is the only
outcome produced by a thrown exception, and even that is swallowed); so the
call does not "fail with an error". No swap happens and the track is
unchanged. -/
theorem no_audio_path_counterexample :
    (playBotAudio Track.orig noSenderOracle).outcome =
        SpeakOutcome.noSenderReturn ∧
    (playBotAudio Track.orig noSenderOracle).outcome ≠
        SpeakOutcome.errorCaught ∧
    (playBotAudio Track.orig noSenderOracle).swapped = false ∧
    (playBotAudio Track.orig noSenderOracle).track = Track.orig := by
  refine ⟨rfl, by decide, rfl, rfl⟩

/-- C3 (amended): if no sender and original track are resolvable within the
bounded wait, the call logs and returns normally (the promise resolves — no
"no audio path" error is thrown): no synthetic track is swapped in, the
sender's track is unchanged, no restore is attempted and the lock is left
free. -/
theorem no_audio_path_amended (t0 : Track) (o : SpeakO)
    (h1 : o.pcmEmpty = false) (h2 : o.lock0 = false)
    (h3 : o.haveSender = false) (h4 : o.findIn3000 = false) :
    playBotAudio t0 o =
      { track := t0, lockHeld := false, swapped := false
        restoreAttempted := false, outcome := SpeakOutcome.noSenderReturn } := by
  simp [playBotAudio, h1, h2, h3, h4]

/-- Witness for C3's amended claim at a concrete input. -/
theorem no_audio_path_amended_witness :
    playBotAudio Track.orig noSenderOracle =
      { track := Track.orig, lockHeld := false, swapped := false
        restoreAttempted := false, outcome := SpeakOutcome.noSenderReturn } :=
  no_audio_path_amended Track.orig noSenderOracle rfl rfl rfl rfl

/-! ### C2: single-flight under interleaving (src/electron/contentScript.ts
lines 312-376)

Two concurrent `playBotAudio` invocations (threads A and B) interleave only at
`await` points; the code between two awaits runs atomically. The lock check
`if (audioSwapLock) return` (line 312) happens before the sender-discovery
`await waitForAudioSender(3000)` (line 320), while `audioSwapLock = true`
(line 337) happens after it; so when the sender must be awaited there is a
yield between a call's lock check and its lock acquisition. When
`localAudioSender`/`originalUserTrack` are already captured, the path from the
check to the acquisition is synchronous (one atomic segment). -/

/-- Control point of one `playBotAudio` invocation: before the lock check,
suspended in `waitForAudioSender(3000)`, lock held and swap pending, playback
running, finished (mic restored, lock released), or aborted by the busy-lock
early return. -/
inductive TPc where
  | start
  | waitingSender
  | ready
  | playing
  | donePlay
  | aborted
  deriving DecidableEq

/-- The shared state of two concurrent invocations: the `audioSwapLock` and
each thread's control point (thread `false` = A, thread `true` = B). -/
structure C2State where
  lock : Bool
  pcA : TPc
  pcB : TPc
  deriving DecidableEq

/-- The control point of thread `t`. -/
def tpcOf (s : C2State) (t : Bool) : TPc := if t then s.pcB else s.pcA

/-- Replace the control point of thread `t`. -/
def setTpc (s : C2State) (t : Bool) (p : TPc) : C2State :=
  if t then { s with pcB := p } else { s with pcA := p }

/-- One atomic segment of thread `t`. With `senderKnown = true` the lock check
and the lock acquisition form one segment (the code path with no await between
lines 312 and 337); with `senderKnown = false` the thread yields in
`waitForAudioSender` between them, and the resumed segment sets the lock
without re-checking it. Playback end (the `onended` handler) restores the mic
and releases the lock. -/
def speakStep (senderKnown : Bool) (s : C2State) (t : Bool) : C2State :=
  match tpcOf s t with
  | TPc.start =>
      if s.lock then setTpc s t TPc.aborted
      else if senderKnown then { setTpc s t TPc.ready with lock := true }
      else setTpc s t TPc.waitingSender
  | TPc.waitingSender => { setTpc s t TPc.ready with lock := true }
  | TPc.ready => setTpc s t TPc.playing
  | TPc.playing => { setTpc s t TPc.donePlay with lock := false }
  | TPc.donePlay => s
  | TPc.aborted => s

/-- Both invocations pending, lock free. -/
def speakInit : C2State := { lock := false, pcA := TPc.start, pcB := TPc.start }

/-- Run a schedule (the sequence of thread ids picked at each step). -/
def speakRun (senderKnown : Bool) (sched : List Bool) : C2State :=
  sched.foldl (speakStep senderKnown) speakInit

/-- Whether thread `t`'s synthetic playback is currently running. -/
def isPlaying (s : C2State) (t : Bool) : Bool := tpcOf s t == TPc.playing

/-- Whether a thread holds the swap (its synthetic track is on the sender or
about to be). -/
def inRegion (p : TPc) : Bool := p == TPc.ready || p == TPc.playing

/-- Invariant of the atomic check-and-acquire system: the lock is held exactly
when some thread is in the swap region, at most one thread is in the region,
and no thread is parked in `waitingSender`. -/
def mutualInv (s : C2State) : Bool :=
  (s.lock == (inRegion s.pcA || inRegion s.pcB)) &&
  !(inRegion s.pcA && inRegion s.pcB) &&
  !(s.pcA == TPc.waitingSender) && !(s.pcB == TPc.waitingSender)

theorem mutualInv_step (s : C2State) (t : Bool)
    (h : mutualInv s = true) : mutualInv (speakStep true s t) = true := by
  rcases s with ⟨l, a, b⟩
  revert h
  cases l <;> cases t <;> cases a <;> cases b <;> decide

theorem mutualInv_foldl (sched : List Bool) :
    ∀ s : C2State, mutualInv s = true →
      mutualInv (sched.foldl (speakStep true) s) = true := by
  induction sched with
  | nil => intro s h; simpa
  | cons t rest ih =>
    intro s h
    simp only [List.foldl_cons]
    exact ih _ (mutualInv_step s t h)

theorem mutualInv_run (sched : List Bool) :
    mutualInv (speakRun true sched) = true :=
  mutualInv_foldl sched speakInit (by decide)

/-- The racy schedule: both calls pass the lock check while the first is
suspended in `waitForAudioSender`, then both acquire the lock, swap and
play. -/
def interleavedSchedule : List Bool := [false, true, false, false, true, true]

/-- C2 (counterexample): when the sender is not yet captured, a second
invocation arriving during the first's `waitForAudioSender(3000)` await passes
the `audioSwapLock` check (still false), and after the awaits both calls set
the lock and start playback — a reachable state where both synthetic playbacks
run simultaneously, so the two playbacks interleave. -/
theorem single_flight_counterexample :
    isPlaying (speakRun false interleavedSchedule) false = true ∧
    isPlaying (speakRun false interleavedSchedule) true = true := by
  decide

/-- C2 (amended): the lock makes `playBotAudio` single-flight only on the path
with no await between the lock check and the lock acquisition — when both
invocations start with the sender already captured, a second call arriving
while one is in progress observes the lock and aborts, and in no interleaving
do the two playbacks overlap. (A call that must await sender discovery
re-checks nothing after its await; the counterexample interleaves there.) -/
theorem single_flight_amended (sched : List Bool) :
    (isPlaying (speakRun true sched) false &&
      isPlaying (speakRun true sched) true) = false := by
  have hinv := mutualInv_run sched
  rcases hs : speakRun true sched with ⟨l, a, b⟩
  rw [hs] at hinv
  revert hinv
  cases l <;> cases a <;> cases b <;> decide

end MeetingBot
